import Mathlib

/-!
Verification of the lead-capture core of the Simple FAQ / SDR agent
(`src/backend/src/agent.py`).

The embedding translates the lead data model and the two tool operations:

* `LeadProfile` — the 7-field dataclass (each field `Optional[str]`, default `None`);
* `update_lead_profile` — the guarded merge (`if name: profile.name = name` …),
  where a Python argument is acted on only when truthy, i.e. neither `None`
  nor the empty string;
* `LeadProfile.is_qualified` — `all([self.name, self.email, self.use_case])`;
* `submit_lead_and_end` — snapshot + timestamp, read the lead store file
  (absent or unparsable content degrades to the empty list via the bare
  `except: pass`), append, rewrite the whole array, return the closing
  f-string;
* `load_knowledge_base` — seed the default FAQ when the file is absent,
  return the re-serialized content, and degrade to `""` on any exception.

File system effects are embedded as explicit state: a lead-store file is a
`LeadsFileState` (absent, existing-but-unparsable, or a well-formed JSON
array of records), and similarly for the FAQ file.
-/

namespace SDR

/-- Python truthiness of an `Optional[str]`: `None` and `""` are falsy,
every other string is truthy. -/
def truthy : Option String → Bool
  | none => false
  | some s => !s.isEmpty

/-- The `LeadProfile` dataclass: seven optional string fields, all
defaulting to `None`. -/
structure LeadProfile where
  name : Option String := none
  company : Option String := none
  email : Option String := none
  role : Option String := none
  use_case : Option String := none
  team_size : Option String := none
  timeline : Option String := none
deriving DecidableEq

/-- The fresh profile created at session start: `LeadProfile()`. -/
def LeadProfile.empty : LeadProfile := {}

/-- `LeadProfile.is_qualified`: `all([self.name, self.email, self.use_case])` —
true iff each of the three is truthy. -/
def LeadProfile.is_qualified (p : LeadProfile) : Bool :=
  truthy p.name && truthy p.email && truthy p.use_case

/-- The seven keyword arguments of `update_lead_profile`, each
`Optional[str]` defaulting to `None`. -/
structure UpdateArgs where
  name : Option String := none
  company : Option String := none
  email : Option String := none
  role : Option String := none
  use_case : Option String := none
  team_size : Option String := none
  timeline : Option String := none
deriving DecidableEq

/-- One guarded assignment of `update_lead_profile`:
`if x: profile.x = x` keeps the current value unless the argument is
truthy (non-`None`, non-empty). -/
def mergeField (cur new : Option String) : Option String :=
  match new with
  | none => cur
  | some s => if s.isEmpty then cur else some s

/-- `update_lead_profile`: apply the seven guarded assignments to the
profile and return the fixed acknowledgment string. -/
def update_lead_profile (p : LeadProfile) (a : UpdateArgs) :
    LeadProfile × String :=
  ({ name := mergeField p.name a.name
     company := mergeField p.company a.company
     email := mergeField p.email a.email
     role := mergeField p.role a.role
     use_case := mergeField p.use_case a.use_case
     team_size := mergeField p.team_size a.team_size
     timeline := mergeField p.timeline a.timeline },
   "Lead profile updated successfully.")

/-- The profile after a sequence of `update_lead_profile` calls. -/
def applyUpdates (p : LeadProfile) (calls : List UpdateArgs) : LeadProfile :=
  calls.foldl (fun q a => (update_lead_profile q a).1) p

/-- The persisted form of a lead: `asdict(profile)` plus the
`timestamp` key (`datetime.now().isoformat()`). -/
structure LeadRecord where
  name : Option String
  company : Option String
  email : Option String
  role : Option String
  use_case : Option String
  team_size : Option String
  timeline : Option String
  timestamp : String
deriving DecidableEq

/-- The record `submit_lead_and_end` builds from the current profile and
the capture timestamp. -/
def leadRecordOf (p : LeadProfile) (ts : String) : LeadRecord :=
  { name := p.name, company := p.company, email := p.email, role := p.role
    use_case := p.use_case, team_size := p.team_size, timeline := p.timeline
    timestamp := ts }

/-- The observable state of the lead-store file (`arvind_leads_db.json`):
absent, existing but unparsable (`json.load` raises), or a well-formed
JSON array of records. -/
inductive LeadsFileState where
  | absent : LeadsFileState
  | corrupt : LeadsFileState
  | wellFormed (records : List LeadRecord) : LeadsFileState
deriving DecidableEq

/-- The `existing_data` list `submit_lead_and_end` obtains: `[]` when the
file does not exist, `[]` when `json.load` raises (the bare
`except: pass` keeps the initial `[]`), otherwise the parsed array. -/
def readLeads : LeadsFileState → List LeadRecord
  | .absent => []
  | .corrupt => []
  | .wellFormed rs => rs

/-- Rendering of a Python `Optional[str]` inside an f-string: `None`
prints as the text `None`, a string prints as itself. -/
def pyStr : Option String → String
  | none => "None"
  | some s => s

/-- The closing f-string of `submit_lead_and_end`. -/
def closingMessage (p : LeadProfile) : String :=
  "Thanks " ++ pyStr p.name ++ "! I have recorded your interest in " ++
    pyStr p.use_case ++ ". We will contact you soon at " ++ pyStr p.email ++
    ". Goodbye!"

/-- `submit_lead_and_end`: build the timestamped record, read the existing
store (empty when absent or unparsable), append, rewrite the whole array,
and return the closing message. -/
def submit_lead_and_end (fs : LeadsFileState) (p : LeadProfile)
    (ts : String) : LeadsFileState × String :=
  let entry := leadRecordOf p ts
  let existing_data := readLeads fs
  (.wellFormed (existing_data ++ [entry]), closingMessage p)

/-- The store after a sequence of finalize calls, each with its own
profile and capture timestamp. -/
def runFinalizes (fs : LeadsFileState)
    (calls : List (LeadProfile × String)) : LeadsFileState :=
  calls.foldl (fun s c => (submit_lead_and_end s c.1 c.2).1) fs

/-- One `{question, answer}` pair of the knowledge base. -/
structure QAPair where
  question : String
  answer : String
deriving DecidableEq

/-- The built-in `DEFAULT_FAQ` list seeded when the FAQ file is absent. -/
def DEFAULT_FAQ : List QAPair :=
  [ { question := "What do you sell?",
      answer := "I offer professional training in AI, Chatbot Development, Java Web Development and Voice AI Agents. I also provide project guidance and mentorship for students." },
    { question := "How much does the AI course cost?",
      answer := "The AI & Chatbot Development course starts from ₹4,999 depending on the module depth and duration." },
    { question := "Do you provide certificates?",
      answer := "Yes, all paid courses include a verified completion certificate and project mentoring support." },
    { question := "Do you offer project help?",
      answer := "Yes, I help students build real-world AI and chatbot projects for academic and professional use." } ]

/-- One pair serialized as a JSON object, as `json.dumps` renders it. -/
def qaJson (qa : QAPair) : String :=
  "\x7b\"question\": \"" ++ qa.question ++ "\", \"answer\": \"" ++
    qa.answer ++ "\"\x7d"

/-- `json.dumps(json.load(f))`: the FAQ list re-serialized as one text
blob, in list order. -/
def serializeFAQ (qas : List QAPair) : String :=
  "[" ++ String.intercalate ", " (qas.map qaJson) ++ "]"

/-- The observable state of the FAQ file (`arvind_store_faq.json`):
absent, an I/O failure on open/read/write, existing but unparsable, or a
well-formed array of pairs. -/
inductive KBFileState where
  | absent : KBFileState
  | ioError : KBFileState
  | corrupt : KBFileState
  | wellFormed (qas : List QAPair) : KBFileState
deriving DecidableEq

/-- `load_knowledge_base`: when the file is absent, seed it with
`DEFAULT_FAQ` and return the re-serialized content; when present and
well formed, return the re-serialized content; any exception (I/O
failure or `json.load` on unparsable content) is caught and the loader
returns `""`. -/
def load_knowledge_base : KBFileState → KBFileState × String
  | .absent => (.wellFormed DEFAULT_FAQ, serializeFAQ DEFAULT_FAQ)
  | .ioError => (.ioError, "")
  | .corrupt => (.corrupt, "")
  | .wellFormed qas => (.wellFormed qas, serializeFAQ qas)

/-! Spec-side characterizations. -/

/-- A field that is set to a non-empty string (the spec's "set
(non-empty)"). -/
def setNonEmpty (o : Option String) : Prop := ∃ s, o = some s ∧ s ≠ ""

/-- `hay` contains `needle` as a substring. -/
def strContains (hay needle : String) : Prop := ∃ a b, hay = a ++ needle ++ b

lemma truthy_iff (o : Option String) : truthy o = true ↔ setNonEmpty o := by
  cases o with
  | none => simp [truthy, setNonEmpty]
  | some s =>
    simp only [truthy, setNonEmpty, Bool.not_eq_true', Option.some.injEq]
    constructor
    · intro h
      exact ⟨s, rfl, fun hs => by
        rw [hs, show String.isEmpty "" = true from rfl] at h
        exact Bool.noConfusion h⟩
    · rintro ⟨t, ht1, ht2⟩
      subst ht1
      cases h : s.isEmpty with
      | false => rfl
      | true => exact absurd (String.isEmpty_iff s |>.mp (by rw [h])) ht2

/-- C2: `is_qualified` is true iff name, email and use_case are all set to
non-empty values, and its value is unchanged by the other four fields. -/
theorem is_qualified_iff_three_fields (p : LeadProfile) :
    (p.is_qualified = true ↔
      setNonEmpty p.name ∧ setNonEmpty p.email ∧ setNonEmpty p.use_case) ∧
    (∀ c r t tl, LeadProfile.is_qualified
        { p with company := c, role := r, team_size := t, timeline := tl } =
      p.is_qualified) := by
  refine ⟨?_, fun c r t tl => rfl⟩
  simp [LeadProfile.is_qualified, truthy_iff, and_assoc]

/-- C3: finalize succeeds on every profile — qualified or not — and in
every store state appends exactly one record. -/
theorem submit_always_appends_one (fs : LeadsFileState) (p : LeadProfile)
    (ts : String) :
    (submit_lead_and_end fs p ts).1 =
      .wellFormed (readLeads fs ++ [leadRecordOf p ts]) ∧
    (readLeads (submit_lead_and_end fs p ts).1).length =
      (readLeads fs).length + 1 := by
  refine ⟨rfl, ?_⟩
  simp [submit_lead_and_end, readLeads]

/-- C4: an absent lead-store file, and one whose content is unparsable,
are both treated as the empty store — finalize does not fail and writes a
one-element array holding only the new record. -/
theorem submit_recovers_missing_and_corrupt (p : LeadProfile) (ts : String) :
    submit_lead_and_end .absent p ts =
      (.wellFormed [leadRecordOf p ts], closingMessage p) ∧
    submit_lead_and_end .corrupt p ts =
      (.wellFormed [leadRecordOf p ts], closingMessage p) :=
  ⟨rfl, rfl⟩

/-- C8: the knowledge-base loader never fails — an absent file is seeded
with the default set and its serialization returned, a well-formed file is
returned serialized in order, and every error case returns the empty
blob. -/
theorem load_knowledge_base_never_fails :
    load_knowledge_base .absent =
      (.wellFormed DEFAULT_FAQ, serializeFAQ DEFAULT_FAQ) ∧
    load_knowledge_base .ioError = (.ioError, "") ∧
    load_knowledge_base .corrupt = (.corrupt, "") ∧
    ∀ qas, load_knowledge_base (.wellFormed qas) =
      (.wellFormed qas, serializeFAQ qas) :=
  ⟨rfl, rfl, rfl, fun _ => rfl⟩

lemma mergeField_idem (c n : Option String) :
    mergeField (mergeField c n) n = mergeField c n := by
  cases n with
  | none => rfl
  | some s =>
    by_cases h : s.isEmpty <;> simp [mergeField, h]

/-- C6: applying `update_lead_profile` twice with the same arguments gives
the same result as applying it once. -/
theorem update_lead_profile_idem (p : LeadProfile) (a : UpdateArgs) :
    update_lead_profile (update_lead_profile p a).1 a =
      update_lead_profile p a := by
  simp [update_lead_profile, mergeField_idem]

/-- The last non-empty value supplied for one field across a sequence of
calls, scanning the per-call argument values; `none` when every supplied
value was absent or empty. -/
def lastNonEmpty : List (Option String) → Option String
  | [] => none
  | v :: vs =>
    match lastNonEmpty vs with
    | some w => some w
    | none =>
      match v with
      | none => none
      | some s => if s.isEmpty then none else some s

/-- The spec's final value of one field: the last non-empty value supplied
for it, or the initial value when none was. -/
def fieldOutcome (cur : Option String) (supplied : List (Option String)) :
    Option String :=
  match lastNonEmpty supplied with
  | some s => some s
  | none => cur

/-- Folding the guarded assignment of one field over a sequence of
argument values. -/
def mergeAll (cur : Option String) (l : List (Option String)) :
    Option String :=
  l.foldl mergeField cur

lemma applyUpdates_fields (calls : List UpdateArgs) (p : LeadProfile) :
    applyUpdates p calls =
      { name := mergeAll p.name (calls.map UpdateArgs.name)
        company := mergeAll p.company (calls.map UpdateArgs.company)
        email := mergeAll p.email (calls.map UpdateArgs.email)
        role := mergeAll p.role (calls.map UpdateArgs.role)
        use_case := mergeAll p.use_case (calls.map UpdateArgs.use_case)
        team_size := mergeAll p.team_size (calls.map UpdateArgs.team_size)
        timeline := mergeAll p.timeline (calls.map UpdateArgs.timeline) } := by
  induction calls generalizing p with
  | nil => rfl
  | cons a calls ih =>
    rw [show applyUpdates p (a :: calls) =
          applyUpdates ((update_lead_profile p a).1) calls from rfl, ih]
    rfl

lemma mergeAll_eq_fieldOutcome (l : List (Option String))
    (cur : Option String) :
    mergeAll cur l = fieldOutcome cur l := by
  induction l generalizing cur with
  | nil => rfl
  | cons v vs ih =>
    rw [show mergeAll cur (v :: vs) = mergeAll (mergeField cur v) vs from rfl,
        ih]
    simp only [fieldOutcome, lastNonEmpty]
    cases h : lastNonEmpty vs with
    | some w => simp
    | none =>
      cases v with
      | none => simp [mergeField]
      | some s => by_cases hs : s.isEmpty <;> simp [mergeField, hs]

/-- C1: after any sequence of update calls, each of the seven fields holds
the last non-empty value supplied for it, and the initial value when every
supplied value was absent or empty. -/
theorem update_last_nonempty_wins (p : LeadProfile)
    (calls : List UpdateArgs) :
    (applyUpdates p calls).name =
      fieldOutcome p.name (calls.map UpdateArgs.name) ∧
    (applyUpdates p calls).company =
      fieldOutcome p.company (calls.map UpdateArgs.company) ∧
    (applyUpdates p calls).email =
      fieldOutcome p.email (calls.map UpdateArgs.email) ∧
    (applyUpdates p calls).role =
      fieldOutcome p.role (calls.map UpdateArgs.role) ∧
    (applyUpdates p calls).use_case =
      fieldOutcome p.use_case (calls.map UpdateArgs.use_case) ∧
    (applyUpdates p calls).team_size =
      fieldOutcome p.team_size (calls.map UpdateArgs.team_size) ∧
    (applyUpdates p calls).timeline =
      fieldOutcome p.timeline (calls.map UpdateArgs.timeline) := by
  rw [applyUpdates_fields]
  exact ⟨mergeAll_eq_fieldOutcome _ _, mergeAll_eq_fieldOutcome _ _,
    mergeAll_eq_fieldOutcome _ _, mergeAll_eq_fieldOutcome _ _,
    mergeAll_eq_fieldOutcome _ _, mergeAll_eq_fieldOutcome _ _,
    mergeAll_eq_fieldOutcome _ _⟩

/-- A field value that is unset, or set to a non-empty string. -/
def fieldUnsetOrNonEmpty (o : Option String) : Prop :=
  o = none ∨ setNonEmpty o

/-- The C10 invariant: every field of the profile is unset or non-empty. -/
def profileInv (p : LeadProfile) : Prop :=
  fieldUnsetOrNonEmpty p.name ∧ fieldUnsetOrNonEmpty p.company ∧
  fieldUnsetOrNonEmpty p.email ∧ fieldUnsetOrNonEmpty p.role ∧
  fieldUnsetOrNonEmpty p.use_case ∧ fieldUnsetOrNonEmpty p.team_size ∧
  fieldUnsetOrNonEmpty p.timeline

lemma mergeField_preserves_inv (c n : Option String)
    (h : fieldUnsetOrNonEmpty c) : fieldUnsetOrNonEmpty (mergeField c n) := by
  cases n with
  | none => exact h
  | some s =>
    by_cases hs : s.isEmpty
    · simpa [mergeField, hs] using h
    · refine Or.inr ⟨s, by simp [mergeField, hs], ?_⟩
      intro hs2
      rw [hs2, show String.isEmpty "" = true from rfl] at hs
      exact hs rfl

lemma update_preserves_inv (p : LeadProfile) (a : UpdateArgs)
    (h : profileInv p) : profileInv (update_lead_profile p a).1 := by
  obtain ⟨h1, h2, h3, h4, h5, h6, h7⟩ := h
  exact ⟨mergeField_preserves_inv _ _ h1, mergeField_preserves_inv _ _ h2,
    mergeField_preserves_inv _ _ h3, mergeField_preserves_inv _ _ h4,
    mergeField_preserves_inv _ _ h5, mergeField_preserves_inv _ _ h6,
    mergeField_preserves_inv _ _ h7⟩

lemma applyUpdates_preserves_inv (calls : List UpdateArgs) (p : LeadProfile)
    (h : profileInv p) : profileInv (applyUpdates p calls) := by
  induction calls generalizing p with
  | nil => exact h
  | cons a calls ih =>
    exact ih ((update_lead_profile p a).1) (update_preserves_inv p a h)

/-- C10: starting from the empty profile, after any sequence of update
calls every field is unset or holds a non-empty string — an empty string
is never stored. -/
theorem empty_string_never_stored (calls : List UpdateArgs) :
    profileInv (applyUpdates LeadProfile.empty calls) :=
  applyUpdates_preserves_inv calls LeadProfile.empty
    ⟨Or.inl rfl, Or.inl rfl, Or.inl rfl, Or.inl rfl, Or.inl rfl,
     Or.inl rfl, Or.inl rfl⟩

lemma runFinalizes_wellFormed (calls : List (LeadProfile × String))
    (rs : List LeadRecord) :
    runFinalizes (.wellFormed rs) calls =
      .wellFormed (rs ++ calls.map (fun c => leadRecordOf c.1 c.2)) := by
  induction calls generalizing rs with
  | nil => simp [runFinalizes]
  | cons c cs ih =>
    rw [show runFinalizes (.wellFormed rs) (c :: cs) =
          runFinalizes (.wellFormed (rs ++ [leadRecordOf c.1 c.2])) cs
        from rfl, ih]
    simp

lemma runFinalizes_absent (calls : List (LeadProfile × String)) :
    readLeads (runFinalizes .absent calls) =
      calls.map (fun c => leadRecordOf c.1 c.2) := by
  cases calls with
  | nil => rfl
  | cons c cs =>
    rw [show runFinalizes .absent (c :: cs) =
          runFinalizes (.wellFormed ([] ++ [leadRecordOf c.1 c.2])) cs
        from rfl, runFinalizes_wellFormed]
    simp [readLeads]

/-- C5: N sequential finalize calls starting from an absent or empty store
yield exactly the N records in call order, and any ordering relation (in
particular non-decreasing order) holding along the supplied capture
timestamps holds along the stored records' timestamps. -/
theorem finalize_roundtrip (calls : List (LeadProfile × String)) :
    readLeads (runFinalizes .absent calls) =
      calls.map (fun c => leadRecordOf c.1 c.2) ∧
    readLeads (runFinalizes (.wellFormed []) calls) =
      calls.map (fun c => leadRecordOf c.1 c.2) ∧
    ∀ R : String → String → Prop,
      List.Chain' R (calls.map Prod.snd) →
      List.Chain' R ((readLeads (runFinalizes .absent calls)).map
        LeadRecord.timestamp) := by
  refine ⟨runFinalizes_absent calls, ?_, ?_⟩
  · rw [runFinalizes_wellFormed]
    simp [readLeads]
  · intro R h
    rw [runFinalizes_absent, List.map_map]
    have e : (LeadRecord.timestamp ∘ fun c : LeadProfile × String =>
        leadRecordOf c.1 c.2) = Prod.snd := funext fun c => rfl
    rw [e]
    exact h

/-- Witness for C5: two finalize calls with non-decreasing timestamps
yield a two-record store whose timestamps are non-decreasing. -/
theorem finalize_roundtrip_witness :
    List.Chain' (fun a b : String => a ≤ b)
      (([((LeadProfile.empty : LeadProfile), ("2024-01-01T00:00:00" : String)),
         (LeadProfile.empty, "2024-01-02T00:00:00")]).map Prod.snd) ∧
    List.Chain' (fun a b : String => a ≤ b)
      ((readLeads (runFinalizes .absent
          [(LeadProfile.empty, "2024-01-01T00:00:00"),
           (LeadProfile.empty, "2024-01-02T00:00:00")])).map
        LeadRecord.timestamp) :=
  ⟨by simp [List.chain'_cons]; decide,
   (finalize_roundtrip
      [(LeadProfile.empty, "2024-01-01T00:00:00"),
       (LeadProfile.empty, "2024-01-02T00:00:00")]).2.2
     (fun a b => a ≤ b) (by simp [List.chain'_cons]; decide)⟩

/-- The fixed seven field names `update_lead_profile` recognizes. -/
def recognizedKeys : List String :=
  ["name", "company", "email", "role", "use_case", "team_size", "timeline"]

/-- Modelled from the spec: the tool-call boundary that delivers named
field arguments to `update_lead_profile` — the dispatch layer lives in the
external framework, not in `agent.py`. A call supplies a mapping of field
names to values; each of the seven recognized parameters receives the
value listed under its name (absent keys give `None`), and keys outside
the recognized seven are never consulted. -/
def toolCallUpdate (p : LeadProfile) (fields : List (String × String)) :
    LeadProfile × String :=
  update_lead_profile p
    { name := fields.lookup "name"
      company := fields.lookup "company"
      email := fields.lookup "email"
      role := fields.lookup "role"
      use_case := fields.lookup "use_case"
      team_size := fields.lookup "team_size"
      timeline := fields.lookup "timeline" }

/-- C7: supplying a field name outside the recognized seven is silently
ignored — the call behaves exactly as if the unrecognized entry were not
there, and in particular raises no error. -/
theorem toolCallUpdate_ignores_unrecognized (p : LeadProfile)
    (fields : List (String × String)) (k v : String)
    (hk : k ∉ recognizedKeys) :
    toolCallUpdate p ((k, v) :: fields) = toolCallUpdate p fields := by
  simp only [recognizedKeys, List.mem_cons, List.not_mem_nil, or_false,
    not_or] at hk
  obtain ⟨h1, h2, h3, h4, h5, h6, h7⟩ := hk
  simp [toolCallUpdate, List.lookup,
    beq_eq_false_iff_ne.mpr (Ne.symm h1), beq_eq_false_iff_ne.mpr (Ne.symm h2),
    beq_eq_false_iff_ne.mpr (Ne.symm h3), beq_eq_false_iff_ne.mpr (Ne.symm h4),
    beq_eq_false_iff_ne.mpr (Ne.symm h5), beq_eq_false_iff_ne.mpr (Ne.symm h6),
    beq_eq_false_iff_ne.mpr (Ne.symm h7)]

/-- Witness for C7: the unrecognized key `nickname` is ignored. -/
theorem toolCallUpdate_ignores_unrecognized_witness :
    ("nickname" ∉ recognizedKeys) ∧
    toolCallUpdate LeadProfile.empty [("nickname", "Ash")] =
      toolCallUpdate LeadProfile.empty [] :=
  ⟨by decide,
   toolCallUpdate_ignores_unrecognized LeadProfile.empty [] "nickname" "Ash"
     (by decide)⟩

/-- C9: the concrete scenario — update name and email, then use_case, then
finalize: the stored record holds exactly those three values with the
other four fields null plus the capture timestamp, and the closing message
contains the name, use case and email. -/
theorem scenario_asha (ts : String) :
    (submit_lead_and_end .absent
        (update_lead_profile
          (update_lead_profile LeadProfile.empty
            { name := some "Asha", email := some "asha@x.com" }).1
          { use_case := some "chatbot" }).1 ts).1 =
      .wellFormed [{ name := some "Asha", company := none,
                     email := some "asha@x.com", role := none,
                     use_case := some "chatbot", team_size := none,
                     timeline := none, timestamp := ts }] ∧
    strContains (submit_lead_and_end .absent
        (update_lead_profile
          (update_lead_profile LeadProfile.empty
            { name := some "Asha", email := some "asha@x.com" }).1
          { use_case := some "chatbot" }).1 ts).2 "Asha" ∧
    strContains (submit_lead_and_end .absent
        (update_lead_profile
          (update_lead_profile LeadProfile.empty
            { name := some "Asha", email := some "asha@x.com" }).1
          { use_case := some "chatbot" }).1 ts).2 "chatbot" ∧
    strContains (submit_lead_and_end .absent
        (update_lead_profile
          (update_lead_profile LeadProfile.empty
            { name := some "Asha", email := some "asha@x.com" }).1
          { use_case := some "chatbot" }).1 ts).2 "asha@x.com" := by
  refine ⟨rfl, ⟨"Thanks ",
      "! I have recorded your interest in chatbot. We will contact you soon at asha@x.com. Goodbye!",
      rfl⟩,
    ⟨"Thanks Asha! I have recorded your interest in ",
      ". We will contact you soon at asha@x.com. Goodbye!", rfl⟩,
    ⟨"Thanks Asha! I have recorded your interest in chatbot. We will contact you soon at ",
      ". Goodbye!", rfl⟩⟩

end SDR
